import Mathlib

/-!
Verification of `scripts/automation_worker_app.py`.

The script is a single linear flow: module-level environment checks, event
loading, App JWT construction, installation resolution (with an
`INSTALLATION_ID` override), installation-token exchange, and a dispatcher
with two actions (`upload_files`, `create_pr`).

Shallow embedding conventions:
- HTTP is an oracle `Http : Request → Response`; each issued request is
  recorded in order in a trace (`RunResult.reqs`).
- `print` output is recorded as a list of lines (`RunResult.output`),
  each line rendered the way Python's `print` with space separators would.
- `sys.exit(n)` is `Outcome.exited n`; an uncaught Python exception
  (e.g. `raise_for_status`, `int()` on a non-numeric string,
  `None.lower()`, `len(None)`) is `Outcome.raised`.
- Python strings are Lean `String`s; `.lower()` is modelled by `pyLower`
  (ASCII case folding, which agrees with Python on the ASCII logins the
  spec talks about).
- JSON values are the inductive `J`; `dict.get(k)` is `jGet` (absent key
  gives `J.null`, matching Python's `None` default).
- Environment variables are an `Env` record of `Option String`
  (`none` = unset; the empty string = set but empty), matching
  `os.environ.get`.
-/

namespace AutomationWorker

/-- JSON values, as returned by `response.json()` and sent as request bodies.
Objects keep field order (Python dicts preserve insertion order). -/
inductive J where
  | null
  | bool (b : Bool)
  | num (n : Int)
  | str (s : String)
  | arr (elems : List J)
  | obj (fields : List (String × J))

/-- `dict.get(key)` on a JSON object: the stored value, or `J.null` when the
key is absent (Python returns `None`); non-objects also give `J.null`
(the source only calls `.get` on dicts). -/
def jGet (o : J) (key : String) : J :=
  match o with
  | J.obj fields =>
    match fields.lookup key with
    | some v => v
    | none => J.null
  | _ => J.null

/-- HTTP methods used by the script. -/
inductive Method where
  | get
  | put
  | post
  deriving DecidableEq, Repr

/-- An outbound HTTP request: method, full URL, and the JSON body for
`json=...` calls (`none` when no body is sent). Headers carry only
authentication and content-type data and are not modelled. -/
structure Request where
  method : Method
  url : String
  body : Option (List (String × J))

/-- An HTTP response as the script observes it: `status_code`, parsed
`.json()` and raw `.text`. -/
structure Response where
  status : Nat
  json : J
  text : String

/-- `requests.Response.ok`: true iff the status code is below 400. -/
def Response.ok (r : Response) : Bool := decide (r.status < 400)

/-- The network oracle: what the outside world answers to each request. -/
abbrev Http := Request → Response

/-- How one process run ends. -/
inductive Outcome where
  | finished
  | exited (code : Nat)
  | raised
  deriving DecidableEq, Repr

/-- Observable result of a run: requests issued in order, lines printed in
order, and how the process ended. -/
structure RunResult where
  reqs : List Request
  output : List String
  outcome : Outcome

/-- Python truthiness of an optional string (`None` and `""` are falsy). -/
def optTruthy : Option String → Bool
  | none => false
  | some s => !(s == "")

/-- Python truthiness of an optional int (`None` and `0` are falsy). -/
def optIntTruthy : Option Int → Bool
  | none => false
  | some n => !(n == 0)

/-- Python `str()` / f-string rendering of an optional string:
`None` prints as `"None"`. -/
def pyStr : Option String → String
  | none => "None"
  | some s => s

/-- An optional string as a JSON value (`None` becomes `null`). -/
def optJ : Option String → J
  | none => J.null
  | some s => J.str s

/-- ASCII lowercase of one character, as Python's `str.lower` acts on
ASCII letters. -/
def pyLowerChar (c : Char) : Char :=
  if 65 ≤ c.toNat ∧ c.toNat ≤ 90 then Char.ofNat (c.toNat + 32) else c

/-- Python's `str.lower()` (ASCII case folding; the account logins and
owner names the script compares are ASCII). -/
def pyLower (s : String) : String := String.mk (s.data.map pyLowerChar)

/-- One decimal digit of an `int()` literal. -/
def decDigit? (c : Char) : Option Nat :=
  if 48 ≤ c.toNat ∧ c.toNat ≤ 57 then some (c.toNat - 48) else none

/-- A non-empty all-digits char list as a natural number. -/
def decNat? (cs : List Char) : Option Nat :=
  if cs.isEmpty then none
  else
    cs.foldl (fun acc c =>
      match acc, decDigit? c with
      | some a, some d => some (a * 10 + d)
      | _, _ => none) (some 0)

/-- Python `int(s)` on a string: the parsed integer, or `none` when the call
raises `ValueError`. (Python also tolerates surrounding whitespace and
underscores; the `[sign]digits` forms modelled here are the ones an
`APP_ID` secret takes.) -/
def pyInt (s : String) : Option Int :=
  match s.data with
  | '+' :: rest => (decNat? rest).map Int.ofNat
  | '-' :: rest => (decNat? rest).map (fun n => -(n : Int))
  | cs => (decNat? cs).map Int.ofNat

/-- The base64 alphabet, as used by `base64.b64encode`. -/
def b64Char (n : Nat) : Char :=
  "ABCDEFGHIJKLMNOPQRSTUVWXYZabcdefghijklmnopqrstuvwxyz0123456789+/".toList.getD n 'A'

/-- Standard base64 of a byte list (`base64.b64encode(...).decode("utf-8")`). -/
def base64Encode : List Nat → String
  | [] => ""
  | [a] =>
    String.mk [b64Char (a / 4), b64Char (a % 4 * 16), '=', '=']
  | [a, b] =>
    String.mk [b64Char (a / 4), b64Char (a % 4 * 16 + b / 16), b64Char (b % 16 * 4), '=']
  | a :: b :: c :: rest =>
    String.mk [b64Char (a / 4), b64Char (a % 4 * 16 + b / 16),
               b64Char (b % 16 * 4 + c / 64), b64Char (c % 64)]
      ++ base64Encode rest

/-- UTF-8 encoding of one scalar value (`str.encode("utf-8")`, per char). -/
def utf8EncodeChar (c : Char) : List Nat :=
  let n := c.toNat
  if n < 0x80 then [n]
  else if n < 0x800 then [0xC0 + n / 64, 0x80 + n % 64]
  else if n < 0x10000 then [0xE0 + n / 4096, 0x80 + n / 64 % 64, 0x80 + n % 64]
  else [0xF0 + n / 262144, 0x80 + n / 4096 % 64, 0x80 + n / 64 % 64, 0x80 + n % 64]

/-- `content.encode("utf-8")` as a byte list. -/
def utf8Bytes (s : String) : List Nat := s.data.flatMap utf8EncodeChar

/-- The environment variables the script reads (`none` = unset). -/
structure Env where
  github_api_url : Option String := none
  app_id : Option String := none
  app_private_key : Option String := none
  installation_id : Option String := none
  github_event_path : Option String := none

/-- `GITHUB_API = os.environ.get("GITHUB_API_URL", "https://api.github.com")`. -/
def githubApi (env : Env) : String :=
  env.github_api_url.getD "https://api.github.com"

/-- One element of `client_payload.files`, typed to the string fields the
script reads (`f.get("path")`, `f.get("content", "")`, `f.get("message",
"automation upload")`, `f.get("branch")`); `none` = key absent. -/
structure FileDesc where
  path : Option String := none
  content : Option String := none
  message : Option String := none
  branch : Option String := none
  deriving DecidableEq

/-- The `client_payload` map, typed to the fields the script reads;
`none` = key absent (so each `payload.get` default applies). -/
structure Payload where
  action : Option String := none
  owner : Option String := none
  owner_type : Option String := none
  repo : Option String := none
  files : Option (List FileDesc) := none
  head : Option String := none
  base : Option String := none
  title : Option String := none
  body : Option String := none
  deriving DecidableEq

/-- The parsed event document; `event.get("client_payload", {})` yields the
default (all-absent) payload when the key is missing. -/
structure Event where
  client_payload : Option Payload := none

/-- The claims dict built by `create_jwt`.  The `jwt.encode` RS256 signing
step is crypto over these claims and is not modelled; the `int(app_id)`
parse happens at the call site (see `main`). -/
structure JwtPayload where
  iat : Int
  exp : Int
  iss : Int
  deriving DecidableEq, Repr

/-- From `create_jwt`: `{"iat": now - 60, "exp": now + (9 * 60), "iss": int(app_id)}`. -/
def create_jwt (now : Int) (app_id : Int) : JwtPayload :=
  { iat := now - 60, exp := now + 9 * 60, iss := app_id }

/-- `inst.get("account", {})`, typed: an installation's account object with
its optional `login` string. -/
structure Account where
  login : Option String := none
  deriving DecidableEq

/-- One element of the `/app/installations` response array, typed to the
fields the script reads: `inst.get("account", {})` and `inst.get("id")`. -/
structure Installation where
  account : Option Account := none
  id : Option Int := none
  deriving DecidableEq

/-- Parse one `account` JSON object.  A non-object account or a non-string
`login` makes the loop in the source raise (`None.get` / `5.lower()`), so
those parse to `none`. -/
def parseAccount : J → Option Account
  | J.obj fields =>
    match fields.lookup "login" with
    | none => some { login := none }
    | some (J.str s) => some { login := some s }
    | some _ => none
  | _ => none

/-- Parse one installation JSON object.  Non-object elements raise in the
source (`inst.get` on a non-dict); non-integer `id` values (which the API
never returns) are not modelled. -/
def parseInstallation : J → Option Installation
  | J.obj fields =>
    let acct : Option (Option Account) :=
      match fields.lookup "account" with
      | none => some none
      | some a => (parseAccount a).map some
    let idv : Option (Option Int) :=
      match fields.lookup "id" with
      | none => some none
      | some (J.num n) => some (some n)
      | some _ => none
    match acct, idv with
    | some a, some i => some { account := a, id := i }
    | _, _ => none
  | _ => none

/-- Parse the `/app/installations` response body into typed installations;
a non-array body makes the `for` loop in the source raise. -/
def parseInstalls : J → Option (List Installation)
  | J.arr elems => elems.mapM parseInstallation
  | _ => none

/-- The `GET {GITHUB_API}/app/installations` request issued by
`find_installation_id`. -/
def installationsListRequest (api : String) : Request :=
  { method := Method.get, url := api ++ "/app/installations", body := none }

/-- The matching loop of `find_installation_id`:
`for inst in installs: acct = inst.get("account", {});
 if acct.get("login", "").lower() == owner_login.lower(): return inst.get("id")`,
falling through to `None`. -/
def findInstallationLoop : List Installation → String → Option Int
  | [], _ => none
  | inst :: rest, owner_login =>
    let acct := inst.account.getD { login := none }
    if pyLower (acct.login.getD "") = pyLower owner_login then inst.id
    else findInstallationLoop rest owner_login

/-- `find_installation_id(jwt_token, owner_login)`: GET the installation
list, `raise_for_status`, then scan for the owner.  `main` can pass
`owner = None` here (when `owner_type` let the owner check pass): then
`owner_login.lower()` raises at the first list element, while an empty
list still falls through to return `None`. -/
def find_installation_id (http : Http) (api : String) (owner_login : Option String) :
    List Request × Except Unit (Option Int) :=
  let req := installationsListRequest api
  let r := http req
  if 400 ≤ r.status then ([req], Except.error ())
  else
    match parseInstalls r.json with
    | none => ([req], Except.error ())
    | some installs =>
      match owner_login with
      | some o => ([req], Except.ok (findInstallationLoop installs o))
      | none =>
        if installs.isEmpty then ([req], Except.ok none)
        else ([req], Except.error ())

/-- The `POST {GITHUB_API}/app/installations/{installation_id}/access_tokens`
request issued by `create_installation_token`. -/
def tokenRequest (api installation_id : String) : Request :=
  { method := Method.post,
    url := api ++ "/app/installations/" ++ installation_id ++ "/access_tokens",
    body := none }

/-- `create_installation_token(jwt_token, installation_id)`: POST for an
access token, `raise_for_status`, then `r.json().get("token")`. -/
def create_installation_token (http : Http) (api installation_id : String) :
    List Request × Except Unit J :=
  let req := tokenRequest api installation_id
  let r := http req
  if 400 ≤ r.status then ([req], Except.error ())
  else ([req], Except.ok (jGet r.json "token"))

/-- The contents URL built by `upload_file`
(`f"{GITHUB_API}/repos/{owner}/{repo}/contents/{path}"`). -/
def contentsUrl (api : String) (owner repo path : Option String) : String :=
  api ++ "/repos/" ++ pyStr owner ++ "/" ++ pyStr repo ++ "/contents/" ++ pyStr path

/-- The GET request `upload_file` issues to look for an existing file. -/
def contentsGetReq (api : String) (owner repo path : Option String) : Request :=
  { method := Method.get, url := contentsUrl api owner repo path, body := none }

/-- The body dict `upload_file` builds before the sha probe:
`{"message": message, "content": b64}` plus `branch` when truthy. -/
def uploadBaseBody (content message : String) (branch : Option String) :
    List (String × J) :=
  let b64 := base64Encode (utf8Bytes content)
  let body := [("message", J.str message), ("content", J.str b64)]
  if optTruthy branch then body ++ [("branch", J.str (branch.getD ""))] else body

/-- `upload_file(token, owner, repo, path, content, message, branch)`:
GET the contents URL; on status 200 extend the body with the response's
`sha`; PUT the body; return the PUT response.  Result: the two requests
issued (in order) and the PUT response the caller inspects. -/
def upload_file (http : Http) (api token : String) (owner repo path : Option String)
    (content : String) (message : String := "Add file via automation")
    (branch : Option String := none) : List Request × Response :=
  let url := contentsUrl api owner repo path
  let body := uploadBaseBody content message branch
  let r_get := http (contentsGetReq api owner repo path)
  let body2 := if r_get.status = 200 then body ++ [("sha", jGet r_get.json "sha")] else body
  let putReq : Request := { method := Method.put, url := url, body := some body2 }
  ([contentsGetReq api owner repo path, putReq], http putReq)

/-- `create_pr(token, owner, repo, head, base, title, body_text)`: one POST
to the pulls URL with `{"title": title, "head": head, "base": base,
"body": body_text}`.  Result: the request issued and its response. -/
def create_pr (http : Http) (api token : String) (owner repo : Option String)
    (head : Option String) (base : String := "main")
    (title : String := "Automated PR") (body_text : String := "") :
    List Request × Response :=
  let url := api ++ "/repos/" ++ pyStr owner ++ "/" ++ pyStr repo ++ "/pulls"
  let data : List (String × J) :=
    [("title", J.str title), ("head", optJ head), ("base", J.str base),
     ("body", J.str body_text)]
  let req : Request := { method := Method.post, url := url, body := some data }
  ([req], http req)

/-- One iteration of the `upload_files` loop body: extract
`path = f.get("path")`, `content = f.get("content", "")`,
`message = f.get("message", "automation upload")` and call `upload_file`
with `branch=f.get("branch")`. -/
def fileStep (http : Http) (api tok : String) (owner repo : Option String)
    (f : FileDesc) : List Request × Response :=
  upload_file http api tok owner repo f.path (f.content.getD "")
    (f.message.getD "automation upload") f.branch

/-- The `for f in files:` loop of the `upload_files` action: per descriptor
run `fileStep` (the extraction plus `upload_file` call), print the status
line, and stop with `sys.exit(1)` on a non-ok PUT response. -/
def uploadLoop (http : Http) (api tok : String) (owner repo : Option String) :
    List FileDesc → List Request → List String → RunResult
  | [], reqs, out =>
    { reqs := reqs, output := out ++ ["done upload_files"], outcome := Outcome.finished }
  | f :: rest, reqs, out =>
    let step := fileStep http api tok owner repo f
    let out1 := out ++ ["upload_file " ++ pyStr f.path ++ " status " ++ toString step.2.status]
    if step.2.ok then
      uploadLoop http api tok owner repo rest (reqs ++ step.1) out1
    else
      { reqs := reqs ++ step.1,
        output := out1 ++ ["Response: " ++ toString step.2.status ++ " " ++ step.2.text],
        outcome := Outcome.exited 1 }

/-- The action dispatcher at the end of `main`: `if action == "upload_files"
... elif action == "create_pr" ... else` (unknown/missing action is fatal).
`reqs0`/`out0` are the trace accumulated before dispatch. -/
def dispatch (payload : Payload) (http : Http) (api tok : String)
    (reqs0 : List Request) (out0 : List String) : RunResult :=
  let owner := payload.owner
  let repo := payload.repo
  if payload.action = some "upload_files" then
    let files := payload.files.getD []
    if !optTruthy repo || files.isEmpty then
      { reqs := reqs0,
        output := out0 ++ ["ERROR: repo and files are required for upload_files"],
        outcome := Outcome.exited 1 }
    else
      uploadLoop http api tok owner repo files reqs0 out0
  else if payload.action = some "create_pr" then
    let head := payload.head
    let base := payload.base.getD "main"
    let title := payload.title.getD "Automated PR"
    let body_text := payload.body.getD ""
    if !optTruthy repo || !optTruthy head then
      { reqs := reqs0,
        output := out0 ++ ["ERROR: repo and head are required for create_pr"],
        outcome := Outcome.exited 1 }
    else
      let pr := create_pr http api tok owner repo head base title body_text
      let out1 := out0 ++ ["create_pr status " ++ toString pr.2.status ++ " " ++ pr.2.text]
      if pr.2.ok then
        { reqs := reqs0 ++ pr.1, output := out1 ++ ["done create_pr"],
          outcome := Outcome.finished }
      else
        { reqs := reqs0 ++ pr.1, output := out1, outcome := Outcome.exited 1 }
  else
    { reqs := reqs0,
      output := out0 ++ ["Unknown or missing action in client_payload: " ++ pyStr payload.action],
      outcome := Outcome.exited 1 }

/-- The tail of `main` once an installation id string is in hand: exchange it
for an installation token (`create_installation_token` plus the
token-length print, where a non-string token makes `len(install_token)`
raise), then dispatch on the action. -/
def afterInstallation (payload : Payload) (http : Http) (api instIdStr : String)
    (reqs0 : List Request) (out0 : List String) : RunResult :=
  match create_installation_token http api instIdStr with
  | (reqs, Except.error _) =>
    { reqs := reqs0 ++ reqs, output := out0, outcome := Outcome.raised }
  | (reqs, Except.ok tokJ) =>
    match tokJ with
    | J.str tok =>
      dispatch payload http api tok (reqs0 ++ reqs)
        (out0 ++ ["Got installation token (length): " ++ toString tok.length])
    | _ =>
      { reqs := reqs0 ++ reqs, output := out0, outcome := Outcome.raised }

/-- The `No installation found` diagnostic
(`f"ERROR: No installation found for owner '{owner}'. ..."`). -/
def noInstallMsg (owner : Option String) : String :=
  "ERROR: No installation found for owner '" ++ pyStr owner ++
    "'. Ensure App is installed on that account/org."

/-- `main()`: owner check (note the `owner_type` escape hatch in the
condition), JWT creation (where `int(APP_ID)` can raise), installation-id
resolution (the `INSTALLATION_ID` override bypasses the lookup), token
exchange, and dispatch. -/
def main (env : Env) (payload : Payload) (http : Http) (now : Int) : RunResult :=
  let api := githubApi env
  let owner := payload.owner
  if !optTruthy owner && !optTruthy payload.owner_type then
    { reqs := [],
      output := ["ERROR: client_payload.owner is required to locate installation."],
      outcome := Outcome.exited 1 }
  else
    match pyInt (env.app_id.getD "") with
    | none => { reqs := [], output := [], outcome := Outcome.raised }
    | some appIdInt =>
      let _jwt := create_jwt now appIdInt
      if optTruthy env.installation_id then
        afterInstallation payload http api (env.installation_id.getD "") [] []
      else
        match find_installation_id http api owner with
        | (reqs, Except.error _) =>
          { reqs := reqs, output := [], outcome := Outcome.raised }
        | (reqs, Except.ok instId) =>
          if optIntTruthy instId then
            afterInstallation payload http api (toString (instId.getD 0)) reqs []
          else
            { reqs := reqs, output := [noInstallMsg owner], outcome := Outcome.exited 1 }

/-- The whole script run: the module-level `APP_ID`/`APP_PRIVATE_KEY` check,
the `GITHUB_EVENT_PATH` existence check, event loading
(`event.get("client_payload", {})`), then `main()`. -/
def program (env : Env) (eventExists : Bool) (event : Event) (http : Http)
    (now : Int) : RunResult :=
  if !optTruthy env.app_id || !optTruthy env.app_private_key then
    { reqs := [],
      output := ["ERROR: APP_ID and APP_PRIVATE_KEY must be set as repo secrets."],
      outcome := Outcome.exited 1 }
  else if !optTruthy env.github_event_path || !eventExists then
    { reqs := [], output := ["ERROR: GITHUB_EVENT_PATH not found."],
      outcome := Outcome.exited 1 }
  else
    main env (event.client_payload.getD {}) http now

/-! ### Concrete fixtures used by witness theorems -/

/-- An oracle where every PUT to the `b` contents URL fails (422), every
other PUT and POST succeeds (201, with a `token` field for the token
exchange), and every GET answers 404 (file absent). -/
def httpW : Http := fun req =>
  match req.method with
  | Method.put =>
    if req.url = "A/repos/o/r/contents/b" then { status := 422, json := J.null, text := "bad" }
    else { status := 201, json := J.null, text := "" }
  | Method.post => { status := 201, json := J.obj [("token", J.str "tok123")], text := "" }
  | Method.get => { status := 404, json := J.null, text := "" }

/-- An oracle whose GETs report an existing file with sha `abc123`. -/
def httpSha : Http := fun req =>
  match req.method with
  | Method.get => { status := 200, json := J.obj [("sha", J.str "abc123")], text := "" }
  | _ => { status := 201, json := J.null, text := "" }

/-- An oracle whose GETs fail with a server error. -/
def http500 : Http := fun req =>
  match req.method with
  | Method.get => { status := 500, json := J.null, text := "boom" }
  | _ => { status := 201, json := J.null, text := "" }

/-- An oracle answering the installation listing with one installation,
login `acme`, id 7. -/
def httpInstalls : Http := fun _ =>
  { status := 200,
    json := J.arr [J.obj [("account", J.obj [("login", J.str "acme")]), ("id", J.num 7)]],
    text := "" }

/-- File descriptor with path `a` (its PUT succeeds under `httpW`). -/
def fdA : FileDesc := { path := some "a" }

/-- File descriptor with path `b` (its PUT fails under `httpW`). -/
def fdB : FileDesc := { path := some "b" }

/-- An environment with the identity secrets set and an
`INSTALLATION_ID` override of `42`. -/
def envOverride : Env :=
  { app_id := some "7", app_private_key := some "k",
    installation_id := some "42", github_event_path := some "/e" }

/-- A payload with an owner and no action-specific fields. -/
def payloadOwnerOnly : Payload := { owner := some "o" }

/-- A valid `create_pr` payload with the `base` field omitted. -/
def payloadPr : Payload :=
  { action := some "create_pr", owner := some "o", repo := some "r", head := some "h" }

/-- A payload whose `owner` is absent but whose `owner_type` is present:
the input on which the owner check in `main` is bypassed. -/
def payloadNoOwner : Payload :=
  { action := some "create_pr", owner := none, owner_type := some "User",
    repo := some "r", head := some "h" }

/-- The event wrapping `payloadNoOwner`. -/
def eventNoOwner : Event := { client_payload := some payloadNoOwner }

/-- An `upload_files` payload that is missing `repo` (and has no files):
it fails the action-specific validation. -/
def payloadBadUpload : Payload := { action := some "upload_files", owner := some "o" }

/-! ### Helper lemmas -/

/-- Every run of the upload loop only appends to the request trace it was
handed. -/
theorem uploadLoop_reqs_prefix (http : Http) (api tok : String)
    (owner repo : Option String) :
    ∀ (files : List FileDesc) (reqs0 : List Request) (out0 : List String),
      ∃ rest, (uploadLoop http api tok owner repo files reqs0 out0).reqs =
        reqs0 ++ rest := by
  intro files
  induction files with
  | nil => intro r o; exact ⟨[], by simp [uploadLoop]⟩
  | cons f rest ih =>
    intro r o
    cases h : (fileStep http api tok owner repo f).2.ok with
    | false => exact ⟨(fileStep http api tok owner repo f).1, by simp [uploadLoop, h]⟩
    | true =>
      obtain ⟨tail, htail⟩ := ih (r ++ (fileStep http api tok owner repo f).1)
        (o ++ ["upload_file " ++ pyStr f.path ++ " status " ++
          toString (fileStep http api tok owner repo f).2.status])
      exact ⟨(fileStep http api tok owner repo f).1 ++ tail,
        by simp [uploadLoop, h, htail]⟩

/-- The dispatcher only appends to the request trace it was handed. -/
theorem dispatch_reqs_prefix (payload : Payload) (http : Http) (api tok : String)
    (reqs0 : List Request) (out0 : List String) :
    ∃ rest, (dispatch payload http api tok reqs0 out0).reqs = reqs0 ++ rest := by
  by_cases h1 : payload.action = some "upload_files"
  · by_cases h2 : (!optTruthy payload.repo || (payload.files.getD []).isEmpty) = true
    · exact ⟨[], by simp [dispatch, h1, h2]⟩
    · obtain ⟨rest, hrest⟩ := uploadLoop_reqs_prefix http api tok payload.owner
        payload.repo (payload.files.getD []) reqs0 out0
      refine ⟨rest, ?_⟩
      simpa [dispatch, h1, h2] using hrest
  · by_cases h2 : payload.action = some "create_pr"
    · by_cases h3 : (!optTruthy payload.repo || !optTruthy payload.head) = true
      · exact ⟨[], by simp [dispatch, h1, h2, h3]⟩
      · refine ⟨(create_pr http api tok payload.owner payload.repo payload.head
          (payload.base.getD "main") (payload.title.getD "Automated PR")
          (payload.body.getD "")).1, ?_⟩
        cases hok : (create_pr http api tok payload.owner payload.repo payload.head
            (payload.base.getD "main") (payload.title.getD "Automated PR")
            (payload.body.getD "")).2.ok <;>
          simp [dispatch, h1, h2, h3, hok]
    · exact ⟨[], by simp [dispatch, h1, h2]⟩

/-- Once `main` has an installation id in hand, the next request issued is
always the token exchange POST for that id. -/
theorem afterInstallation_reqs_shape (payload : Payload) (http : Http)
    (api instId : String) (reqs0 : List Request) (out0 : List String) :
    ∃ rest, (afterInstallation payload http api instId reqs0 out0).reqs =
      reqs0 ++ tokenRequest api instId :: rest := by
  unfold afterInstallation create_installation_token
  by_cases h : 400 ≤ (http (tokenRequest api instId)).status
  · exact ⟨[], by simp [h]⟩
  · rw [if_neg h]
    cases hj : jGet (http (tokenRequest api instId)).json "token" with
    | str tok =>
      obtain ⟨rest, hrest⟩ := dispatch_reqs_prefix payload http api tok
        (reqs0 ++ [tokenRequest api instId])
        (out0 ++ ["Got installation token (length): " ++ toString tok.length])
      exact ⟨rest, by simp [hj, hrest]⟩
    | null => exact ⟨[], by simp [hj]⟩
    | bool b => exact ⟨[], by simp [hj]⟩
    | num n => exact ⟨[], by simp [hj]⟩
    | arr l => exact ⟨[], by simp [hj]⟩
    | obj l => exact ⟨[], by simp [hj]⟩

/-- When every PUT succeeds, the upload loop issues the per-descriptor
request pairs in descriptor order and finishes normally. -/
theorem uploadLoop_all_ok (http : Http) (api tok : String)
    (owner repo : Option String) :
    ∀ (files : List FileDesc) (reqs0 : List Request) (out0 : List String),
      (∀ f ∈ files, (fileStep http api tok owner repo f).2.ok = true) →
      (uploadLoop http api tok owner repo files reqs0 out0).reqs =
          reqs0 ++ files.flatMap (fun f => (fileStep http api tok owner repo f).1)
        ∧ (uploadLoop http api tok owner repo files reqs0 out0).outcome =
            Outcome.finished := by
  intro files
  induction files with
  | nil => intro r o _; exact ⟨by simp [uploadLoop], by simp [uploadLoop]⟩
  | cons f rest ih =>
    intro r o h
    have hf : (fileStep http api tok owner repo f).2.ok = true := h f (by simp)
    have hrest := ih (r ++ (fileStep http api tok owner repo f).1)
      (o ++ ["upload_file " ++ pyStr f.path ++ " status " ++
        toString (fileStep http api tok owner repo f).2.status])
      (fun g hg => h g (by simp [hg]))
    refine ⟨?_, ?_⟩
    · simp only [uploadLoop, hf, if_true]
      rw [hrest.1]
      simp
    · simp only [uploadLoop, hf, if_true]
      exact hrest.2

/-- When the PUT for descriptor `f` fails after a prefix of successes, the
loop issues exactly the pairs for the prefix and for `f`, then exits 1 —
nothing is issued for the remaining descriptors. -/
theorem uploadLoop_failfast (http : Http) (api tok : String)
    (owner repo : Option String) (f : FileDesc) (post : List FileDesc) :
    ∀ (pre : List FileDesc) (reqs0 : List Request) (out0 : List String),
      (∀ g ∈ pre, (fileStep http api tok owner repo g).2.ok = true) →
      (fileStep http api tok owner repo f).2.ok = false →
      (uploadLoop http api tok owner repo (pre ++ f :: post) reqs0 out0).reqs =
          reqs0 ++ pre.flatMap (fun g => (fileStep http api tok owner repo g).1)
            ++ (fileStep http api tok owner repo f).1
        ∧ (uploadLoop http api tok owner repo (pre ++ f :: post) reqs0 out0).outcome =
            Outcome.exited 1 := by
  intro pre
  induction pre with
  | nil =>
    intro r o _ hf
    exact ⟨by simp [uploadLoop, hf], by simp [uploadLoop, hf]⟩
  | cons g pre ih =>
    intro r o hpre hf
    have hg : (fileStep http api tok owner repo g).2.ok = true := hpre g (by simp)
    have hrest := ih (r ++ (fileStep http api tok owner repo g).1)
      (o ++ ["upload_file " ++ pyStr g.path ++ " status " ++
        toString (fileStep http api tok owner repo g).2.status])
      (fun g' hg' => hpre g' (by simp [hg'])) hf
    refine ⟨?_, ?_⟩
    · simp only [List.cons_append, uploadLoop, hg, if_true, List.append_eq]
      rw [hrest.1]
      simp
    · simp only [List.cons_append, uploadLoop, hg, if_true, List.append_eq]
      exact hrest.2

/-! ### Claim theorems -/

/-- C9: For every invocation of the assertion builder at current time `t`,
the signed assertion's claims are exactly issued-at = `t - 60` seconds,
expiry = `t + 540` seconds (9 minutes forward), and issuer = the numeric
identity id. -/
theorem jwt_claims_values (now app_id : Int) :
    (create_jwt now app_id).iat = now - 60 ∧
    (create_jwt now app_id).exp = now + 540 ∧
    (create_jwt now app_id).iss = app_id := by
  refine ⟨rfl, ?_, rfl⟩
  show now + 9 * 60 = now + 540
  norm_num

/-- C8: For every environment in which `APP_ID` or `APP_PRIVATE_KEY` is
unset or empty, the process prints a diagnostic and exits with status 1
before issuing any network call (the request trace is empty). -/
theorem missing_identity_env_exits_before_network (env : Env) (eventExists : Bool)
    (event : Event) (http : Http) (now : Int)
    (h : optTruthy env.app_id = false ∨ optTruthy env.app_private_key = false) :
    program env eventExists event http now =
      { reqs := [],
        output := ["ERROR: APP_ID and APP_PRIVATE_KEY must be set as repo secrets."],
        outcome := Outcome.exited 1 } := by
  unfold program
  rcases h with h | h <;> rw [h] <;> simp

/-- Witness for C8: an environment with `APP_ID` unset. -/
theorem missing_identity_env_exits_before_network_witness :
    program { app_private_key := some "k" } true {} httpW 0 =
      { reqs := [],
        output := ["ERROR: APP_ID and APP_PRIVATE_KEY must be set as repo secrets."],
        outcome := Outcome.exited 1 } :=
  missing_identity_env_exits_before_network _ _ _ _ _ (Or.inl (by decide))

/-- C1: The `upload_files` action issues, per descriptor in list order,
exactly one GET followed by one PUT to the same URL; when every PUT
succeeds the full trace is the per-descriptor pairs in order; when the PUT
for descriptor `f` is the first failure, the trace stops with `f`'s pair
(nothing for the later descriptors, no rollback requests) and the process
exits with status 1. -/
theorem upload_files_pairs_failfast (http : Http) (api tok : String)
    (owner repo : Option String) :
    (∀ f : FileDesc, ∃ u b,
        (fileStep http api tok owner repo f).1 =
          [{ method := Method.get, url := u, body := none },
           { method := Method.put, url := u, body := some b }])
    ∧ (∀ (files : List FileDesc) (reqs0 : List Request) (out0 : List String),
        (∀ f ∈ files, (fileStep http api tok owner repo f).2.ok = true) →
        (uploadLoop http api tok owner repo files reqs0 out0).reqs =
            reqs0 ++ files.flatMap (fun f => (fileStep http api tok owner repo f).1)
          ∧ (uploadLoop http api tok owner repo files reqs0 out0).outcome =
              Outcome.finished)
    ∧ (∀ (pre : List FileDesc) (f : FileDesc) (post : List FileDesc)
          (reqs0 : List Request) (out0 : List String),
        (∀ g ∈ pre, (fileStep http api tok owner repo g).2.ok = true) →
        (fileStep http api tok owner repo f).2.ok = false →
        (uploadLoop http api tok owner repo (pre ++ f :: post) reqs0 out0).reqs =
            reqs0 ++ pre.flatMap (fun g => (fileStep http api tok owner repo g).1)
              ++ (fileStep http api tok owner repo f).1
          ∧ (uploadLoop http api tok owner repo (pre ++ f :: post) reqs0 out0).outcome =
              Outcome.exited 1) :=
  ⟨fun _ => ⟨_, _, rfl⟩,
   uploadLoop_all_ok http api tok owner repo,
   fun pre f post reqs0 out0 hpre hf =>
     uploadLoop_failfast http api tok owner repo f post pre reqs0 out0 hpre hf⟩

/-- Witness for C1: under `httpW` the PUT for `fdA` succeeds and the PUT for
`fdB` fails, so the loop issues `fdA`'s pair then `fdB`'s pair and exits 1. -/
theorem upload_files_pairs_failfast_witness :
    (uploadLoop httpW "A" "t" (some "o") (some "r") ([fdA] ++ fdB :: []) [] []).reqs =
        [] ++ [fdA].flatMap (fun g => (fileStep httpW "A" "t" (some "o") (some "r") g).1)
          ++ (fileStep httpW "A" "t" (some "o") (some "r") fdB).1
      ∧ (uploadLoop httpW "A" "t" (some "o") (some "r") ([fdA] ++ fdB :: []) [] []).outcome =
          Outcome.exited 1 :=
  (upload_files_pairs_failfast httpW "A" "t" (some "o") (some "r")).2.2
    [fdA] fdB [] [] [] (by decide) (by decide)

/-- C2: In `upload_file`, a GET answering 200 with a sha makes the PUT body
exactly the base body extended with that sha under the key `"sha"`; a GET
answering 404 leaves the PUT body the base body, which has no `"sha"` key. -/
theorem upload_file_sha_propagation (http : Http) (api tok : String)
    (owner repo path : Option String) (content message : String)
    (branch : Option String) (s : String) :
    ((http (contentsGetReq api owner repo path)).status = 200 →
      jGet (http (contentsGetReq api owner repo path)).json "sha" = J.str s →
      (upload_file http api tok owner repo path content message branch).1 =
        [contentsGetReq api owner repo path,
         { method := Method.put, url := contentsUrl api owner repo path,
           body := some (uploadBaseBody content message branch ++ [("sha", J.str s)]) }])
    ∧ ((http (contentsGetReq api owner repo path)).status = 404 →
      (upload_file http api tok owner repo path content message branch).1 =
        [contentsGetReq api owner repo path,
         { method := Method.put, url := contentsUrl api owner repo path,
           body := some (uploadBaseBody content message branch) }]
      ∧ "sha" ∉ (uploadBaseBody content message branch).map Prod.fst) := by
  constructor
  · intro h200 hsha
    simp only [upload_file]
    rw [if_pos h200, hsha]
  · intro h404
    refine ⟨?_, ?_⟩
    · simp only [upload_file]
      rw [if_neg (by omega)]
    · cases h : optTruthy branch <;> simp [uploadBaseBody, h]

/-- Witness for C2: under `httpSha` the GET answers 200 with sha `abc123`,
which lands in the PUT body. -/
theorem upload_file_sha_propagation_witness :
    (upload_file httpSha "A" "t" (some "o") (some "r") (some "p") "c" "m" none).1 =
      [contentsGetReq "A" (some "o") (some "r") (some "p"),
       { method := Method.put, url := contentsUrl "A" (some "o") (some "r") (some "p"),
         body := some (uploadBaseBody "c" "m" none ++ [("sha", J.str "abc123")]) }] :=
  (upload_file_sha_propagation httpSha "A" "t" (some "o") (some "r") (some "p")
    "c" "m" none "abc123").1 (by rfl) (by rfl)

/-- C10: In `upload_file`, every GET status other than 200 (404, 401, 403,
500, ...) is treated identically to "file absent": the PUT is still issued
with the sha-less base body, and the result `upload_file` hands back is the
PUT response alone — the GET status never aborts the run. -/
theorem upload_get_status_never_aborts (http : Http) (api tok : String)
    (owner repo path : Option String) (content message : String)
    (branch : Option String)
    (hne : (http (contentsGetReq api owner repo path)).status ≠ 200) :
    upload_file http api tok owner repo path content message branch =
      ([contentsGetReq api owner repo path,
        { method := Method.put, url := contentsUrl api owner repo path,
          body := some (uploadBaseBody content message branch) }],
       http { method := Method.put, url := contentsUrl api owner repo path,
              body := some (uploadBaseBody content message branch) })
    ∧ "sha" ∉ (uploadBaseBody content message branch).map Prod.fst := by
  constructor
  · simp only [upload_file]
    rw [if_neg hne]
  · cases h : optTruthy branch <;> simp [uploadBaseBody, h]

/-- Witness for C10: a GET failing with 500 still yields the sha-less PUT. -/
theorem upload_get_status_never_aborts_witness :
    upload_file http500 "A" "t" (some "o") (some "r") (some "p") "c" "m" none =
      ([contentsGetReq "A" (some "o") (some "r") (some "p"),
        { method := Method.put, url := contentsUrl "A" (some "o") (some "r") (some "p"),
          body := some (uploadBaseBody "c" "m" none) }],
       http500 { method := Method.put, url := contentsUrl "A" (some "o") (some "r") (some "p"),
                 body := some (uploadBaseBody "c" "m" none) }) :=
  (upload_get_status_never_aborts http500 "A" "t" (some "o") (some "r") (some "p")
    "c" "m" none (by decide)).1

/-- C4: `find_installation_id` scans the installation list in order and
returns the `id` of the first installation whose account login equals the
owner login case-insensitively (so owner `Acme` matches login `acme`), and
`None` when no login matches; given a listing response that is the
installation array, the wrapper issues exactly the listing GET and returns
the scan's result. -/
theorem find_installation_first_match_ci :
    (∀ (installs : List Installation) (owner_login : String),
        findInstallationLoop installs owner_login =
          (installs.find? (fun inst =>
            pyLower ((inst.account.getD { login := none }).login.getD "") ==
              pyLower owner_login)).bind Installation.id)
    ∧ findInstallationLoop
        [{ account := some { login := some "acme" }, id := some 7 }] "Acme" = some 7
    ∧ (∀ (http : Http) (api owner_login : String) (installs : List Installation),
        (http (installationsListRequest api)).status < 400 →
        parseInstalls (http (installationsListRequest api)).json = some installs →
        find_installation_id http api (some owner_login) =
          ([installationsListRequest api],
           Except.ok (findInstallationLoop installs owner_login))) := by
  refine ⟨?_, by decide, ?_⟩
  · intro installs owner_login
    induction installs with
    | nil => rfl
    | cons inst rest ih =>
      by_cases h : pyLower ((inst.account.getD { login := none }).login.getD "") =
          pyLower owner_login
      · rw [List.find?_cons_of_pos _ (by simp [h])]
        simp [findInstallationLoop, h]
      · rw [List.find?_cons_of_neg _ (by simp [h])]
        simp [findInstallationLoop, h, ih]
  · intro http api owner_login installs hlt hparse
    unfold find_installation_id
    rw [if_neg (by omega), hparse]

/-- Witness for C4: a single-installation listing with login `acme`, id 7,
looked up for owner `Acme`. -/
theorem find_installation_first_match_ci_witness :
    find_installation_id httpInstalls "A" (some "Acme") =
      ([installationsListRequest "A"],
       Except.ok (findInstallationLoop
         [{ account := some { login := some "acme" }, id := some 7 }] "Acme")) :=
  find_installation_first_match_ci.2.2 httpInstalls "A" "Acme"
    [{ account := some { login := some "acme" }, id := some 7 }] (by decide) (by rfl)

/-- C5: For every valid `create_pr` event, the dispatcher issues exactly one
POST whose body is exactly the four-field map title/head/base/body, with
`base` equal to the payload's `base` field when present and `"main"` when
it is omitted. -/
theorem create_pr_body_fields (payload : Payload) (http : Http) (api tok : String)
    (reqs0 : List Request) (out0 : List String)
    (ha : payload.action = some "create_pr")
    (hrepo : optTruthy payload.repo = true)
    (hhead : optTruthy payload.head = true) :
    (dispatch payload http api tok reqs0 out0).reqs =
      reqs0 ++ [{ method := Method.post,
                  url := api ++ "/repos/" ++ pyStr payload.owner ++ "/" ++
                    pyStr payload.repo ++ "/pulls",
                  body := some [("title", J.str (payload.title.getD "Automated PR")),
                                ("head", optJ payload.head),
                                ("base", J.str (payload.base.getD "main")),
                                ("body", J.str (payload.body.getD ""))] }] := by
  unfold dispatch
  rw [if_neg (by rw [ha]; decide), if_pos ha,
    if_neg (by rw [hrepo, hhead]; decide)]
  simp only [create_pr]
  split <;> rfl

/-- Witness for C5: `payloadPr` omits `base`, and the POST body carries
`"base": "main"`. -/
theorem create_pr_body_fields_witness :
    (dispatch payloadPr httpW "A" "t" [] []).reqs =
      [] ++ [{ method := Method.post,
               url := "A" ++ "/repos/" ++ pyStr payloadPr.owner ++ "/" ++
                 pyStr payloadPr.repo ++ "/pulls",
               body := some [("title", J.str (payloadPr.title.getD "Automated PR")),
                             ("head", optJ payloadPr.head),
                             ("base", J.str (payloadPr.base.getD "main")),
                             ("body", J.str (payloadPr.body.getD ""))] }] :=
  create_pr_body_fields payloadPr httpW "A" "t" [] [] (by decide) (by decide) (by decide)

/-- C7: In every run that reaches the dispatch stage (`afterInstallation`),
the token-exchange POST is issued unconditionally before the
action-specific required-field validation: a payload failing its action's
validation still produces the token request in the trace, followed by the
validation exit with status 1 and no further requests. -/
theorem token_exchange_precedes_validation (payload : Payload) (http : Http)
    (api tok instId : String) (reqs0 : List Request) (out0 : List String)
    (hstat : (http (tokenRequest api instId)).status < 400)
    (htok : jGet (http (tokenRequest api instId)).json "token" = J.str tok)
    (hval : (payload.action = some "upload_files" ∧
              (optTruthy payload.repo = false ∨ (payload.files.getD []).isEmpty = true))
          ∨ (payload.action = some "create_pr" ∧
              (optTruthy payload.repo = false ∨ optTruthy payload.head = false))) :
    (afterInstallation payload http api instId reqs0 out0).reqs =
        reqs0 ++ [tokenRequest api instId]
      ∧ (afterInstallation payload http api instId reqs0 out0).outcome =
          Outcome.exited 1 := by
  unfold afterInstallation create_installation_token
  rw [if_neg (by omega)]
  simp only [htok]
  rcases hval with ⟨ha, hv⟩ | ⟨ha, hv⟩
  · have hc : (!optTruthy payload.repo || (payload.files.getD []).isEmpty) = true := by
      rcases hv with h | h <;> simp [h]
    simp [dispatch, ha, hc]
  · have hc : (!optTruthy payload.repo || !optTruthy payload.head) = true := by
      rcases hv with h | h <;> simp [h]
    rw [show dispatch payload http api tok (reqs0 ++ [tokenRequest api instId])
        (out0 ++ ["Got installation token (length): " ++ toString tok.length]) =
        { reqs := reqs0 ++ [tokenRequest api instId],
          output := (out0 ++ ["Got installation token (length): " ++ toString tok.length])
            ++ ["ERROR: repo and head are required for create_pr"],
          outcome := Outcome.exited 1 } from by
      unfold dispatch
      rw [if_neg (by rw [ha]; decide), if_pos ha, if_pos hc]]
    exact ⟨rfl, rfl⟩

/-- Witness for C7: `payloadBadUpload` is an `upload_files` payload missing
`repo`; the token exchange still happens and the run then exits 1. -/
theorem token_exchange_precedes_validation_witness :
    (afterInstallation payloadBadUpload httpW "A" "42" [] []).reqs =
        [] ++ [tokenRequest "A" "42"]
      ∧ (afterInstallation payloadBadUpload httpW "A" "42" [] []).outcome =
          Outcome.exited 1 :=
  token_exchange_precedes_validation payloadBadUpload httpW "A" "tok123" "42" [] []
    (by decide) (by rfl) (Or.inl ⟨by decide, Or.inl (by decide)⟩)

/-- C3: When the `INSTALLATION_ID` override is set to a non-empty value,
`main` never performs the installation-listing lookup — it jumps straight
to the token exchange with the override as the installation id (the first
request of the whole run is that token POST), even when an owner is
supplied in the payload. -/
theorem installation_override_skips_lookup (env : Env) (payload : Payload)
    (http : Http) (now : Int) (n : Int)
    (howner : optTruthy payload.owner = true)
    (happ : pyInt (env.app_id.getD "") = some n)
    (hid : optTruthy env.installation_id = true) :
    main env payload http now =
      afterInstallation payload http (githubApi env) (env.installation_id.getD "") [] []
    ∧ (main env payload http now).reqs.head? =
      some (tokenRequest (githubApi env) (env.installation_id.getD "")) := by
  have h1 : main env payload http now =
      afterInstallation payload http (githubApi env) (env.installation_id.getD "") [] [] := by
    simp only [main, howner, happ, hid, Bool.not_true, Bool.false_and, Bool.false_eq_true,
      if_false, if_true]
  refine ⟨h1, ?_⟩
  rw [h1]
  obtain ⟨rest, hrest⟩ := afterInstallation_reqs_shape payload http (githubApi env)
    (env.installation_id.getD "") [] []
  rw [hrest]
  simp

/-- Witness for C3: `envOverride` sets the override to `42` with an owner
also present in the payload. -/
theorem installation_override_skips_lookup_witness :
    main envOverride payloadOwnerOnly httpW 0 =
      afterInstallation payloadOwnerOnly httpW (githubApi envOverride)
        (envOverride.installation_id.getD "") [] []
    ∧ (main envOverride payloadOwnerOnly httpW 0).reqs.head? =
      some (tokenRequest (githubApi envOverride) (envOverride.installation_id.getD "")) :=
  installation_override_skips_lookup envOverride payloadOwnerOnly httpW 0 7
    (by decide) (by decide) (by decide)

/-- C6 (claim refuted — code bug): the claim says a payload whose `owner`
field is absent is rejected with a diagnostic and a non-zero exit before
any credential work, regardless of other payload fields.  The source's
check is `if not owner and not payload.get("owner_type")`, so a payload
with `owner` absent but `owner_type` present slips through: on
`eventNoOwner` the run builds the JWT, exchanges the token (a network
call), POSTs a pull request to the nonsense URL
`.../repos/None/r/pulls`, and finishes with exit status 0 — no owner
diagnostic is ever printed. -/
theorem owner_absent_bypassed_by_owner_type :
    program envOverride true eventNoOwner httpW 0 =
      { reqs := [tokenRequest "https://api.github.com" "42",
                 { method := Method.post,
                   url := "https://api.github.com/repos/None/r/pulls",
                   body := some [("title", J.str "Automated PR"), ("head", J.str "h"),
                                 ("base", J.str "main"), ("body", J.str "")] }],
        output := ["Got installation token (length): 6", "create_pr status 201 ",
                   "done create_pr"],
        outcome := Outcome.finished } := by
  rfl

end AutomationWorker
